import Mathlib

/-
Verification of the gallahan_hoa_assistant backend (FastAPI + LangChain RAG
service).  The Python sources are shallowly embedded: pure glue logic becomes
Lean functions, the mutable RAGService object becomes an explicit state record
threaded through its operations, and external library behaviour (PDF parsing,
text splitting, vector similarity ranking, LLM inference) is abstracted into a
LibOracle record of functions supplied as a parameter.  Side effects (files
written, blocking calls and the executor they run on) are reified as traces so
that claims about persistence and thread-pool offloading are statable.
-/

namespace HOA

/- ------------------------------------------------------------------ -/
/- HTTP routing layer, from src/backend/main.py                        -/
/- ------------------------------------------------------------------ -/

inductive Method
  | get
  | post
deriving DecidableEq, Repr

structure Route where
  method : Method
  path : String
deriving DecidableEq, Repr

/- The six route decorators of main.py, in source order:
   lines 46, 50, 72, 110, 143, 157. -/
def appRoutes : List Route :=
  [ ⟨Method.get, "/"⟩,
    ⟨Method.post, "/api/ask"⟩,
    ⟨Method.post, "/api/upload-bylaws"⟩,
    ⟨Method.post, "/api/submit-request"⟩,
    ⟨Method.get, "/api/health"⟩,
    ⟨Method.get, "/api/test-llm"⟩ ]

/- The asyncio.wait_for call sites in the program: main.py line 55
   (ask_question, timeout=120.0) and main.py line 166 (test_llm,
   timeout=10.0).  No other wait_for occurs in the sources. -/
structure WaitForSite where
  endpoint : String
  timeoutSeconds : Nat
deriving DecidableEq, Repr

def waitForSites : List WaitForSite :=
  [ ⟨"ask_question", 120⟩, ⟨"test_llm", 10⟩ ]

/- ------------------------------------------------------------------ -/
/- Environment variables and provider selection (rag_service.py)       -/
/- ------------------------------------------------------------------ -/

/- Kernel-computable counterparts of Python string helpers (Lean core's
   String.toLower, String.endsWith and Nat.repr rely on well-founded
   recursion and do not reduce definitionally). -/

/- str.lower(). -/
def pyLower (s : String) : String :=
  ⟨s.data.map Char.toLower⟩

/- str.endswith(suffix). -/
def pyEndswith (s suffix : String) : Bool :=
  suffix.data.isSuffixOf s.data

def digitChar : Nat → Char
  | 0 => '0'
  | 1 => '1'
  | 2 => '2'
  | 3 => '3'
  | 4 => '4'
  | 5 => '5'
  | 6 => '6'
  | 7 => '7'
  | 8 => '8'
  | 9 => '9'
  | _ => '*'

def natReprCore : Nat → Nat → List Char → List Char
  | 0, _, acc => acc
  | fuel + 1, n, acc =>
      if n < 10 then digitChar n :: acc
      else natReprCore fuel (n / 10) (digitChar (n % 10) :: acc)

/- Decimal rendering of a Nat, as Python str() / f-string formatting does. -/
def natRepr (n : Nat) : String :=
  ⟨natReprCore (n + 1) n []⟩

instance exceptDecEq {ε α : Type} [DecidableEq ε] [DecidableEq α] :
    DecidableEq (Except ε α) := fun x y =>
  match x, y with
  | Except.ok a, Except.ok b =>
      if h : a = b then isTrue (by rw [h])
      else isFalse (by intro hc; cases hc; exact h rfl)
  | Except.ok _, Except.error _ => isFalse (by intro hc; cases hc)
  | Except.error _, Except.ok _ => isFalse (by intro hc; cases hc)
  | Except.error e, Except.error f =>
      if h : e = f then isTrue (by rw [h])
      else isFalse (by intro hc; cases hc; exact h rfl)

structure EnvVars where
  llmProvider : Option String
  openaiApiKey : Option String
  ollamaBaseUrl : Option String
  ollamaModel : Option String
  huggingfaceApiKey : Option String
  huggingfaceModel : Option String
  embeddingProvider : Option String
  embeddingModel : Option String
deriving DecidableEq, Repr

/- os.getenv with a default. -/
def getenv (value : Option String) (dflt : String) : String :=
  value.getD dflt

/- An environment with no variables set (every os.getenv default applies). -/
def defaultEnv : EnvVars :=
  ⟨none, none, none, none, none, none, none, none⟩

inductive LLMKind
  | chatOpenAI (apiKey : String)
  | ollama (baseUrl model : String) (timeoutSeconds : Nat)
  | huggingFaceEndpoint (repoId token : String)
deriving DecidableEq, Repr

/- RAGService._get_llm (rag_service.py lines 27-64).  A Python falsy check
   `if not api_key` treats both an unset variable and the empty string as
   missing. -/
def getLlm (env : EnvVars) : Except String LLMKind :=
  let provider := pyLower (getenv env.llmProvider "ollama")
  if provider = "openai" then
    match env.openaiApiKey with
    | some k => if k = "" then Except.error "OPENAI_API_KEY not set"
                else Except.ok (LLMKind.chatOpenAI k)
    | none => Except.error "OPENAI_API_KEY not set"
  else if provider = "ollama" then
    Except.ok (LLMKind.ollama (getenv env.ollamaBaseUrl "http://localhost:11434")
      (getenv env.ollamaModel "mistral") 120)
  else if provider = "huggingface" then
    match env.huggingfaceApiKey with
    | some k => if k = "" then Except.error "HUGGINGFACE_API_KEY not set"
                else Except.ok (LLMKind.huggingFaceEndpoint
                  (getenv env.huggingfaceModel "mistralai/Mistral-7B-Instruct-v0.2") k)
    | none => Except.error "HUGGINGFACE_API_KEY not set"
  else
    Except.error ("Unknown LLM provider: " ++ provider)

inductive EmbeddingsKind
  | openAI (apiKey : String)
  | huggingFace (modelName : String)
deriving DecidableEq, Repr

/- RAGService._get_embeddings (rag_service.py lines 66-81). -/
def getEmbeddings (env : EnvVars) : Except String EmbeddingsKind :=
  let provider := pyLower (getenv env.embeddingProvider "huggingface")
  if provider = "openai" then
    match env.openaiApiKey with
    | some k => if k = "" then Except.error "OPENAI_API_KEY not set"
                else Except.ok (EmbeddingsKind.openAI k)
    | none => Except.error "OPENAI_API_KEY not set"
  else if provider = "huggingface" then
    Except.ok (EmbeddingsKind.huggingFace
      (getenv env.embeddingModel "sentence-transformers/all-MiniLM-L6-v2"))
  else
    Except.error ("Unknown embedding provider: " ++ provider)

/- ------------------------------------------------------------------ -/
/- Documents, vector store, external library oracle                    -/
/- ------------------------------------------------------------------ -/

/- A LangChain document chunk: page text plus the metadata PyPDFLoader
   attaches ("source" = the file path, "page" = the 0-based page number). -/
structure Document where
  pageContent : String
  source : String
  page : Nat
deriving DecidableEq, Repr

/- The FAISS vector store is modelled by the list of chunks it holds. -/
abbrev Vectorstore := List Document

/- Behaviour delegated to external libraries, abstracted as functions:
   PyPDFLoader.load, RecursiveCharacterTextSplitter.split_documents (its
   chunk_size and chunk_overlap arguments are made explicit), FAISS
   similarity ranking, and LLM inference. -/
structure LibOracle where
  loadPdf : String → List Document
  splitDocs : Nat → Nat → List Document → List Document
  rankBySimilarity : List Document → String → List Document
  llmInvoke : LLMKind → String → String

/- A trivial oracle instance used to evaluate the model on concrete inputs. -/
def trivialLib : LibOracle :=
  { loadPdf := fun _ => [],
    splitDocs := fun _ _ ds => ds,
    rankBySimilarity := fun ds _ => ds,
    llmInvoke := fun _ p => p }

/- vectorstore.as_retriever(search_kwargs={"k": k}): similarity search
   returns the top k ranked chunks. -/
def getRelevantDocuments (lib : LibOracle) (docs : Vectorstore) (k : Nat)
    (question : String) : List Document :=
  (lib.rankBySimilarity docs question).take k

/- ------------------------------------------------------------------ -/
/- The QA chain (rag_service.py _initialize_qa_chain, lines 115-146)   -/
/- ------------------------------------------------------------------ -/

/- The LCEL chain built at _initialize_qa_chain: it captures the retriever
   (with its k) over the current vector store and the current LLM.
   self.retriever is created in the same call, over the same vector store
   and with the same k, so the record stands for both attributes. -/
structure QAChain where
  retrieverK : Nat
  llm : LLMKind
  docs : Vectorstore
deriving DecidableEq, Repr

/- format_docs (rag_service.py lines 134-135). -/
def formatDocs (docs : List Document) : String :=
  String.intercalate "\n\n" (docs.map Document.pageContent)

/- The ChatPromptTemplate of rag_service.py lines 122-128, with the context
   and question substituted. -/
def ragPrompt (context question : String) : String :=
  "You are an HOA assistant. Answer based on the context below. Be concise.\n\nContext: "
    ++ context ++ "\n\nQuestion: " ++ question ++ "\n\nAnswer:"

/- StrOutputParser on a chat/LLM string output. -/
def strOutputParser (s : String) : String := s

/- The stages of the LCEL pipeline
   {context: retriever | format_docs, question: passthrough} | prompt | llm
   | StrOutputParser, reified so that their order is statable. -/
inductive ChainStep
  | retrieval (k : Nat)
  | promptTemplate
  | llmCall
  | outputParse
deriving DecidableEq, Repr

/- qa_chain.invoke: runs the pipeline and records the stage order. -/
def qaChainInvoke (lib : LibOracle) (chain : QAChain) (question : String) :
    String × List ChainStep :=
  let retrieved := getRelevantDocuments lib chain.docs chain.retrieverK question
  let context := formatDocs retrieved
  let prompted := ragPrompt context question
  let llmOut := lib.llmInvoke chain.llm prompted
  (strOutputParser llmOut,
   [ChainStep.retrieval chain.retrieverK, ChainStep.promptTemplate,
    ChainStep.llmCall, ChainStep.outputParse])

/- ------------------------------------------------------------------ -/
/- RAGService state and operations                                     -/
/- ------------------------------------------------------------------ -/

structure RAGState where
  embeddings : Option EmbeddingsKind
  vectorstore : Option Vectorstore
  qaChain : Option QAChain
  llm : Option LLMKind
  persistDirectory : String
deriving DecidableEq, Repr

/- RAGService._initialize_qa_chain: returns without change unless both the
   LLM and the vector store are set; otherwise installs the k=2 retriever
   chain (rag_service.py lines 115-143). -/
def initializeQaChain (s : RAGState) : RAGState :=
  match s.llm, s.vectorstore with
  | some llm, some docs => { s with qaChain := some ⟨2, llm, docs⟩ }
  | _, _ => s

/- RAGService.__init__ plus _initialize (rag_service.py lines 18-113).
   fsIndex is the content of ./faiss_index on disk (none when the index.faiss
   file does not exist).  The try/except of _initialize swallows provider
   errors, leaving later fields unset. -/
def initializeService (env : EnvVars) (fsIndex : Option Vectorstore) : RAGState :=
  let base : RAGState :=
    { embeddings := none, vectorstore := none, qaChain := none, llm := none,
      persistDirectory := "./faiss_index" }
  match getEmbeddings env with
  | Except.error _ => base
  | Except.ok emb =>
    let s1 := { base with embeddings := some emb }
    match getLlm env with
    | Except.error _ => s1
    | Except.ok llm =>
      let s2 := { s1 with llm := some llm }
      match fsIndex with
      | some docs => initializeQaChain { s2 with vectorstore := some docs }
      | none => s2

/- RAGService.is_initialized (rag_service.py lines 148-150). -/
def isInitialized (s : RAGState) : Bool :=
  s.qaChain.isSome

/- Where a call executes: directly on the asyncio event loop, on the
   service's ThreadPoolExecutor(max_workers=3), or on the loop's default
   executor (run_in_executor(None, ...)). -/
inductive ExecTarget
  | eventLoop
  | serviceExecutor
  | defaultExecutor
deriving DecidableEq, Repr

/- The operations index_document performs, in order, with their arguments. -/
inductive IndexStep
  | loadDocuments (path : String)
  | splitDocuments (chunkSize chunkOverlap : Nat)
  | addDocuments
  | fromDocuments
  | saveLocal (dir : String)
  | reinitQaChain
deriving DecidableEq, Repr

/- RAGService.index_document (rag_service.py lines 152-181): load the PDF,
   split with chunk_size=1000 / chunk_overlap=200, add the chunks to the
   vector store (creating it on first use), save_local to the persist
   directory, and rebuild the QA chain.  Every one of these calls is made
   inline in the async function body, so each trace entry carries
   ExecTarget.eventLoop.  Returns the new state, the vector store now on
   disk at the persist directory, and the step trace. -/
def indexDocument (s : RAGState) (lib : LibOracle) (filePath : String) :
    RAGState × Option Vectorstore × List (IndexStep × ExecTarget) :=
  let documents := lib.loadPdf filePath
  let chunks := lib.splitDocs 1000 200 documents
  match s.vectorstore with
  | some existing =>
      let vs := existing ++ chunks
      let s2 := initializeQaChain { s with vectorstore := some vs }
      (s2, some vs,
        [ (IndexStep.loadDocuments filePath, ExecTarget.eventLoop),
          (IndexStep.splitDocuments 1000 200, ExecTarget.eventLoop),
          (IndexStep.addDocuments, ExecTarget.eventLoop),
          (IndexStep.saveLocal s.persistDirectory, ExecTarget.eventLoop),
          (IndexStep.reinitQaChain, ExecTarget.eventLoop) ])
  | none =>
      let vs := chunks
      let s2 := initializeQaChain { s with vectorstore := some vs }
      (s2, some vs,
        [ (IndexStep.loadDocuments filePath, ExecTarget.eventLoop),
          (IndexStep.splitDocuments 1000 200, ExecTarget.eventLoop),
          (IndexStep.fromDocuments, ExecTarget.eventLoop),
          (IndexStep.saveLocal s.persistDirectory, ExecTarget.eventLoop),
          (IndexStep.reinitQaChain, ExecTarget.eventLoop) ])

/- os.path.basename for the forward-slash paths the backend builds: the
   suffix after the last '/'. -/
def basename (path : String) : String :=
  ⟨((path.data.reverse.takeWhile (fun c => c != '/')).reverse)⟩

/- The source string built for one retrieved chunk (rag_service.py
   lines 215-218): base filename and 1-based page number. -/
def formatSource (d : Document) : String :=
  basename d.source ++ " (Page " ++ natRepr (d.page + 1) ++ ")"

structure QueryResult where
  answer : String
  sources : List String
deriving DecidableEq, Repr

def notInitializedMsg : String :=
  "RAG service not initialized. Please upload documents first or check your configuration."

/- RAGService.query (rag_service.py lines 183-229).  The two blocking
   library calls, qa_chain.invoke and retriever.get_relevant_documents, are
   both sent through loop.run_in_executor(self.executor, ...); the trace
   records that.  Python's list(set(sources)) is modelled as List.dedup
   (set iteration order is not observable in the claims considered). -/
def query (s : RAGState) (lib : LibOracle) (question : String) :
    Except String QueryResult × List (String × ExecTarget) :=
  match s.qaChain with
  | none => (Except.error notInitializedMsg, [])
  | some chain =>
      let answer := (qaChainInvoke lib chain question).1
      let docs := getRelevantDocuments lib chain.docs chain.retrieverK question
      let sources := (docs.map formatSource).dedup
      (Except.ok { answer := answer, sources := sources },
       [ ("qa_chain.invoke", ExecTarget.serviceExecutor),
         ("retriever.get_relevant_documents", ExecTarget.serviceExecutor) ])

/- ------------------------------------------------------------------ -/
/- HTTP endpoints (main.py)                                            -/
/- ------------------------------------------------------------------ -/

inductive AskResponse
  | answer (answer : String) (sources : List String)
  | httpError (status : Nat) (detail : String)
deriving DecidableEq, Repr

def askTimeoutSeconds : Nat := 120

def timeoutDetail : String :=
  "Query timed out after 120 seconds. The LLM may be slow or not responding. If using Ollama, ensure it\x27s running and try: \x27ollama run mistral\x27 to warm up the model."

/- ask_question (main.py lines 50-70): the whole rag_service.query call runs
   under asyncio.wait_for with timeout 120.0.  timedOut says whether that
   wait_for expired (wall-clock time is outside the model); a TimeoutError
   maps to HTTP 504, any other exception to HTTP 500 with str(e) as detail. -/
def askQuestion (s : RAGState) (lib : LibOracle) (question : String)
    (timedOut : Bool) : AskResponse :=
  if timedOut then
    AskResponse.httpError 504 timeoutDetail
  else
    match (query s lib question).1 with
    | Except.ok r => AskResponse.answer r.answer r.sources
    | Except.error e => AskResponse.httpError 500 e

inductive UploadEffect
  | makedirs (dir : String)
  | writeFile (path : String) (size : Nat)
  | indexDocument (path : String)
deriving DecidableEq, Repr

inductive UploadResult
  | ok (message filename : String) (size : Nat)
  | httpError (status : Nat) (detail : String)
deriving DecidableEq, Repr

/- upload_bylaws (main.py lines 72-108).  The filename check precedes
   everything; the directory is created and the body read before the
   emptiness check; only then is the file written and indexed.  Returns the
   HTTP result, the RAG state after the call, and the filesystem effects in
   order (makedirs, file write with its byte count, index call). -/
def uploadBylaws (s : RAGState) (lib : LibOracle) (filename : String)
    (content : List Nat) : UploadResult × RAGState × List UploadEffect :=
  if pyEndswith filename ".pdf" = false then
    (UploadResult.httpError 400 "Only PDF files are allowed", s, [])
  else if content.length = 0 then
    (UploadResult.httpError 400 "Uploaded file is empty", s,
     [UploadEffect.makedirs "documents"])
  else
    let filePath := "documents" ++ "/" ++ filename
    let indexed := indexDocument s lib filePath
    (UploadResult.ok ("Document " ++ filename ++ " uploaded and indexed successfully")
       filename content.length,
     indexed.1,
     [ UploadEffect.makedirs "documents",
       UploadEffect.writeFile filePath content.length,
       UploadEffect.indexDocument filePath ])

structure ChangeRequest where
  homeownerName : String
  email : String
  address : String
  changeType : String
  description : String
  urgency : String
deriving DecidableEq, Repr

/- The JSON object written for one change request (main.py lines 120-130). -/
structure RequestData where
  requestId : String
  homeownerName : String
  email : String
  address : String
  changeType : String
  description : String
  urgency : String
  status : String
  submittedAt : String
deriving DecidableEq, Repr

structure ChangeRequestResponse where
  requestId : String
  status : String
  submittedAt : String
deriving DecidableEq, Repr

/- submit_change_request (main.py lines 110-141).  nowCompact is
   datetime.now().strftime("%Y%m%d%H%M%S") at the request_id line, nowIso
   the datetime.now().isoformat() in the payload.  Returns the response and
   the list of (path, contents) JSON files written. -/
def submitChangeRequest (req : ChangeRequest) (nowCompact nowIso : String) :
    ChangeRequestResponse × List (String × RequestData) :=
  let requestId := "REQ-" ++ nowCompact
  let data : RequestData :=
    { requestId := requestId,
      homeownerName := req.homeownerName,
      email := req.email,
      address := req.address,
      changeType := req.changeType,
      description := req.description,
      urgency := req.urgency,
      status := "submitted",
      submittedAt := nowIso }
  ({ requestId := requestId, status := "submitted", submittedAt := nowIso },
   [("requests" ++ "/" ++ requestId ++ ".json", data)])

/- ------------------------------------------------------------------ -/
/- Reachable service states                                            -/
/- ------------------------------------------------------------------ -/

/- States the RAGService can actually be in: freshly constructed, or the
   result of indexing a document (directly or through the upload endpoint).
   query does not modify the state. -/
inductive Reachable : RAGState → Prop
  | init (env : EnvVars) (fs : Option Vectorstore) :
      Reachable (initializeService env fs)
  | index (s : RAGState) (lib : LibOracle) (p : String) :
      Reachable s → Reachable (indexDocument s lib p).1
  | upload (s : RAGState) (lib : LibOracle) (fn : String) (c : List Nat) :
      Reachable s → Reachable (uploadBylaws s lib fn c).2.1

/- A concrete document for evaluating the model. -/
def sampleDoc : Document :=
  ⟨"Solar panels require board approval.", "documents/bylaws.pdf", 0⟩

/- The initialization invariant: a set QA chain implies a set LLM and a set
   vector store. -/
def ServiceInv (s : RAGState) : Prop :=
  s.qaChain.isSome = true → s.llm.isSome = true ∧ s.vectorstore.isSome = true

/- Every QA chain the service ever installs uses the k=2 retriever. -/
def ChainK2 (s : RAGState) : Prop :=
  ∀ c, s.qaChain = some c → c.retrieverK = 2

/- ------------------------------------------------------------------ -/
/- Helper lemmas                                                       -/
/- ------------------------------------------------------------------ -/

lemma persist_initializeQaChain (s : RAGState) :
    (initializeQaChain s).persistDirectory = s.persistDirectory := by
  cases s with
  | mk emb vs chain llm pd => cases llm <;> cases vs <;> rfl

lemma persist_indexDocument (s : RAGState) (lib : LibOracle) (p : String) :
    ((indexDocument s lib p).1).persistDirectory = s.persistDirectory := by
  cases s with
  | mk emb vs chain llm pd => cases vs <;> cases llm <;> rfl

lemma persist_uploadBylaws (s : RAGState) (lib : LibOracle) (fn : String)
    (bytes : List Nat) :
    ((uploadBylaws s lib fn bytes).2.1).persistDirectory = s.persistDirectory := by
  unfold uploadBylaws
  by_cases h1 : pyEndswith fn ".pdf" = false
  · simp [h1]
  · by_cases h2 : bytes.length = 0
    · simp [h1, h2]
    · simp [h1, h2, persist_indexDocument]

lemma reachable_persist {s : RAGState} (h : Reachable s) :
    s.persistDirectory = "./faiss_index" := by
  induction h with
  | init env fs =>
      unfold initializeService
      cases hE : getEmbeddings env with
      | error e => rfl
      | ok emb =>
          cases hL : getLlm env with
          | error e => rfl
          | ok llm =>
              cases fs with
              | none => rfl
              | some docs => rw [persist_initializeQaChain]
  | index s0 lib p hs ih => rw [persist_indexDocument]; exact ih
  | upload s0 lib fn bytes hs ih => rw [persist_uploadBylaws]; exact ih

lemma inv_initializeQaChain {s : RAGState} (h : ServiceInv s) :
    ServiceInv (initializeQaChain s) := by
  cases s with
  | mk emb vs chain llm pd =>
      cases llm with
      | none => cases vs <;> exact h
      | some l =>
          cases vs with
          | none => exact h
          | some d => intro _; exact ⟨rfl, rfl⟩

lemma inv_indexDocument {s : RAGState} (lib : LibOracle) (p : String)
    (h : ServiceInv s) : ServiceInv (indexDocument s lib p).1 := by
  cases s with
  | mk emb vs chain llm pd =>
      cases vs with
      | none =>
          cases llm with
          | none =>
              intro hc
              have hbad := (h hc).1
              simp at hbad
          | some l => intro _; exact ⟨rfl, rfl⟩
      | some existing =>
          cases llm with
          | none =>
              intro hc
              have hbad := (h hc).1
              simp at hbad
          | some l => intro _; exact ⟨rfl, rfl⟩

lemma inv_uploadBylaws {s : RAGState} (lib : LibOracle) (fn : String)
    (bytes : List Nat) (h : ServiceInv s) :
    ServiceInv (uploadBylaws s lib fn bytes).2.1 := by
  unfold uploadBylaws
  by_cases h1 : pyEndswith fn ".pdf" = false
  · simpa [h1] using h
  · by_cases h2 : bytes.length = 0
    · simpa [h1, h2] using h
    · simpa [h1, h2] using inv_indexDocument lib ("documents" ++ "/" ++ fn) h

lemma inv_initializeService (env : EnvVars) (fs : Option Vectorstore) :
    ServiceInv (initializeService env fs) := by
  unfold initializeService
  cases hE : getEmbeddings env with
  | error e => intro hc; simp at hc
  | ok emb =>
      cases hL : getLlm env with
      | error e => intro hc; simp at hc
      | ok llm =>
          cases fs with
          | none => intro hc; simp at hc
          | some docs => intro _; exact ⟨rfl, rfl⟩

lemma reachable_inv {s : RAGState} (hr : Reachable s) : ServiceInv s := by
  induction hr with
  | init env fs => exact inv_initializeService env fs
  | index s0 lib p hs ih => exact inv_indexDocument lib p ih
  | upload s0 lib fn bytes hs ih => exact inv_uploadBylaws lib fn bytes ih

lemma k2_indexDocument {s : RAGState} (lib : LibOracle) (p : String)
    (h : ChainK2 s) : ChainK2 (indexDocument s lib p).1 := by
  cases s with
  | mk emb vs chain llm pd =>
      cases vs with
      | none =>
          cases llm with
          | none => exact h
          | some l => intro c hc; injection hc with h2; subst h2; rfl
      | some existing =>
          cases llm with
          | none => exact h
          | some l => intro c hc; injection hc with h2; subst h2; rfl

lemma k2_uploadBylaws {s : RAGState} (lib : LibOracle) (fn : String)
    (bytes : List Nat) (h : ChainK2 s) :
    ChainK2 (uploadBylaws s lib fn bytes).2.1 := by
  unfold uploadBylaws
  by_cases h1 : pyEndswith fn ".pdf" = false
  · simpa [h1] using h
  · by_cases h2 : bytes.length = 0
    · simpa [h1, h2] using h
    · simpa [h1, h2] using k2_indexDocument lib ("documents" ++ "/" ++ fn) h

lemma k2_initializeService (env : EnvVars) (fs : Option Vectorstore) :
    ChainK2 (initializeService env fs) := by
  unfold initializeService
  cases hE : getEmbeddings env with
  | error e => intro c hc; simp at hc
  | ok emb =>
      cases hL : getLlm env with
      | error e => intro c hc; simp at hc
      | ok llm =>
          cases fs with
          | none => intro c hc; simp at hc
          | some docs => intro c hc; injection hc with h2; subst h2; rfl

lemma reachable_k2 {s : RAGState} (hr : Reachable s) : ChainK2 s := by
  induction hr with
  | init env fs => exact k2_initializeService env fs
  | index s0 lib p hs ih => exact k2_indexDocument lib p ih
  | upload s0 lib fn bytes hs ih => exact k2_uploadBylaws lib fn bytes ih

/- ------------------------------------------------------------------ -/
/- Theorems                                                            -/
/- ------------------------------------------------------------------ -/

/-- Claim C1, as stated, is false: the FastAPI app registers six routes, not
four. -/
theorem c1_routes_count_not_four :
    appRoutes.length = 6 ∧ ¬ (appRoutes.length = 4) := by
  decide

/-- Claim C1, amended: the HTTP façade registers exactly six endpoints, namely
GET /, POST /api/ask, POST /api/upload-bylaws, POST /api/submit-request,
GET /api/health and GET /api/test-llm. -/
theorem c1_routes_count_six :
    appRoutes.length = 6 ∧
    appRoutes.map Route.path =
      ["/", "/api/ask", "/api/upload-bylaws", "/api/submit-request",
       "/api/health", "/api/test-llm"] := by
  decide

/-- Claim C2, as stated, is false: the program contains two asyncio.wait_for
call sites (ask_question with 120 s and test_llm with 10 s), not exactly
one. -/
theorem c2_waitfor_not_single :
    waitForSites.length = 2 ∧ ¬ (waitForSites.length = 1) := by
  decide

/-- Claim C2, amended: there are exactly two wait_for wrappers; the one in
ask_question guards the whole RAG query of /api/ask with a 120-second
timeout, and when that wait_for expires the endpoint returns HTTP 504
instead of hanging. -/
theorem c2_two_waitfor_ask_timeout_504 :
    waitForSites = [⟨"ask_question", 120⟩, ⟨"test_llm", 10⟩] ∧
    askTimeoutSeconds = 120 ∧
    ∀ (s : RAGState) (lib : LibOracle) (q : String),
      askQuestion s lib q true = AskResponse.httpError 504 timeoutDetail :=
  ⟨rfl, rfl, fun _ _ _ => rfl⟩

/-- Claim C3: every successful /api/submit-request call writes exactly one
JSON file, at requests/REQ-(timestamp).json, holding all submitted fields
plus status submitted and the submitted_at timestamp, and the response
fields equal the values written to that file. -/
theorem c3_submit_request_single_file (req : ChangeRequest)
    (nowCompact nowIso : String) :
    (submitChangeRequest req nowCompact nowIso).2 =
      [("requests/REQ-" ++ nowCompact ++ ".json",
        { requestId := "REQ-" ++ nowCompact,
          homeownerName := req.homeownerName,
          email := req.email,
          address := req.address,
          changeType := req.changeType,
          description := req.description,
          urgency := req.urgency,
          status := "submitted",
          submittedAt := nowIso })] ∧
    (submitChangeRequest req nowCompact nowIso).1.requestId = "REQ-" ++ nowCompact ∧
    (submitChangeRequest req nowCompact nowIso).1.status = "submitted" ∧
    (submitChangeRequest req nowCompact nowIso).1.submittedAt = nowIso := by
  refine ⟨?_, rfl, rfl, rfl⟩
  rfl

/-- Claim C5: index_document runs the pipeline in order document loading,
then chunking with chunk_size 1000 and chunk_overlap 200, then embedding
into the vector index (adding to it, or creating it the first time), then
saving and rebuilding the chain; and every query chain invocation applies
retrieval, then the prompt template, then the LLM call, then output
parsing, in that order, with the chain built over a k=2 retriever. -/
theorem c5_pipeline_order (s : RAGState) (lib : LibOracle) (p q : String)
    (chain : QAChain) :
    (((indexDocument s lib p).2.2).map Prod.fst =
      [IndexStep.loadDocuments p, IndexStep.splitDocuments 1000 200,
       IndexStep.addDocuments, IndexStep.saveLocal s.persistDirectory,
       IndexStep.reinitQaChain] ∨
     ((indexDocument s lib p).2.2).map Prod.fst =
      [IndexStep.loadDocuments p, IndexStep.splitDocuments 1000 200,
       IndexStep.fromDocuments, IndexStep.saveLocal s.persistDirectory,
       IndexStep.reinitQaChain]) ∧
    (qaChainInvoke lib chain q).2 =
      [ChainStep.retrieval chain.retrieverK, ChainStep.promptTemplate,
       ChainStep.llmCall, ChainStep.outputParse] ∧
    (∀ (llm : LLMKind) (docs : Vectorstore),
      (initializeQaChain
        { s with llm := some llm, vectorstore := some docs }).qaChain =
          some ⟨2, llm, docs⟩) := by
  refine ⟨?_, rfl, fun llm docs => rfl⟩
  cases s with
  | mk emb vs chain0 llm0 pd =>
      cases vs with
      | some existing => exact Or.inl rfl
      | none => exact Or.inr rfl

/-- Claim C7, as stated, is false: on a concrete indexing call, all five
operations of index_document (loading, splitting, embedding, saving,
chain rebuild) run directly on the event loop, not on the thread-pool
executor. -/
theorem c7_indexing_not_offloaded_cex :
    ((indexDocument (initializeService defaultEnv none) trivialLib
        "documents/bylaws.pdf").2.2).map Prod.snd =
      [ExecTarget.eventLoop, ExecTarget.eventLoop, ExecTarget.eventLoop,
       ExecTarget.eventLoop, ExecTarget.eventLoop] ∧
    ExecTarget.eventLoop ≠ ExecTarget.serviceExecutor := by
  decide

/-- Claim C7, amended: in RAGService.query both blocking operations (the
chain invocation and the relevant-document retrieval) run on the service
thread-pool executor, but the blocking calls of index_document all run
directly on the event loop. -/
theorem c7_executor_targets (s : RAGState) (lib : LibOracle) (q p : String) :
    (query s lib q).2 =
      (if s.qaChain.isSome then
        [("qa_chain.invoke", ExecTarget.serviceExecutor),
         ("retriever.get_relevant_documents", ExecTarget.serviceExecutor)]
       else []) ∧
    (((indexDocument s lib p).2.2).map Prod.snd).all
      (fun t => t == ExecTarget.eventLoop) = true := by
  constructor
  · cases s with
    | mk emb vs chain llm pd => cases chain <;> rfl
  · cases s with
    | mk emb vs chain llm pd => cases vs <;> rfl

/-- Claim C4: after every index_document call on a reachable service state
the updated vector store is saved under the persist directory
./faiss_index (the on-disk index equals the vector store of the resulting
state), and a service constructed while an index exists on disk loads it
and starts initialized. -/
theorem c4_index_persistence (s : RAGState) (lib : LibOracle) (p : String)
    (env : EnvVars) (docs : Vectorstore) (e : EmbeddingsKind) (l : LLMKind)
    (hr : Reachable s) (hE : getEmbeddings env = Except.ok e)
    (hL : getLlm env = Except.ok l) :
    s.persistDirectory = "./faiss_index" ∧
    (IndexStep.saveLocal "./faiss_index", ExecTarget.eventLoop) ∈
      (indexDocument s lib p).2.2 ∧
    (indexDocument s lib p).2.1 = ((indexDocument s lib p).1).vectorstore ∧
    (initializeService env (some docs)).vectorstore = some docs ∧
    isInitialized (initializeService env (some docs)) = true := by
  have hp := reachable_persist hr
  refine ⟨hp, ?_, ?_, ?_, ?_⟩
  · rw [← hp]
    cases s with
    | mk emb vs chain llm pd => cases vs <;> simp [indexDocument]
  · cases s with
    | mk emb vs chain llm pd => cases vs <;> cases llm <;> rfl
  · unfold initializeService
    rw [hE, hL]
    rfl
  · unfold initializeService
    rw [hE, hL]
    rfl

/-- Witness for claim C4, at the default environment: indexing into a fresh
service saves the store to ./faiss_index, and construction over a saved
index yields an initialized service. -/
theorem c4_index_persistence_witness :
    (initializeService defaultEnv none).persistDirectory = "./faiss_index" ∧
    (IndexStep.saveLocal "./faiss_index", ExecTarget.eventLoop) ∈
      (indexDocument (initializeService defaultEnv none) trivialLib
        "documents/bylaws.pdf").2.2 ∧
    (indexDocument (initializeService defaultEnv none) trivialLib
        "documents/bylaws.pdf").2.1 =
      ((indexDocument (initializeService defaultEnv none) trivialLib
        "documents/bylaws.pdf").1).vectorstore ∧
    (initializeService defaultEnv (some [sampleDoc])).vectorstore =
      some [sampleDoc] ∧
    isInitialized (initializeService defaultEnv (some [sampleDoc])) = true :=
  c4_index_persistence (initializeService defaultEnv none) trivialLib
    "documents/bylaws.pdf" defaultEnv [sampleDoc]
    (EmbeddingsKind.huggingFace "sentence-transformers/all-MiniLM-L6-v2")
    (LLMKind.ollama "http://localhost:11434" "mistral" 120)
    (Reachable.init defaultEnv none) (by decide) (by decide)

/-- Claim C6: an upload whose filename does not end in .pdf, or whose content
is empty, gets HTTP 400; in that case the service state is unchanged, no
file is written into the documents directory and no indexing happens (the
only possible effect is creating the documents directory itself). -/
theorem c6_upload_validation (s : RAGState) (lib : LibOracle) (fn : String)
    (bytes : List Nat)
    (h : pyEndswith fn ".pdf" = false ∨ bytes.length = 0) :
    (∃ d, (uploadBylaws s lib fn bytes).1 = UploadResult.httpError 400 d) ∧
    (uploadBylaws s lib fn bytes).2.1 = s ∧
    ∀ e ∈ (uploadBylaws s lib fn bytes).2.2,
      e = UploadEffect.makedirs "documents" := by
  unfold uploadBylaws
  by_cases h1 : pyEndswith fn ".pdf" = false
  · simp [h1]
  · rcases h with h | h
    · exact absurd h h1
    · simp [h1, h]

/-- Witness for claim C6: uploading notes.txt is rejected with 400, leaves
the fresh service state unchanged, and performs no file write and no
indexing. -/
theorem c6_upload_validation_witness :
    (∃ d, (uploadBylaws (initializeService defaultEnv none) trivialLib
        "notes.txt" [1]).1 = UploadResult.httpError 400 d) ∧
    (uploadBylaws (initializeService defaultEnv none) trivialLib
        "notes.txt" [1]).2.1 = initializeService defaultEnv none ∧
    ∀ e ∈ (uploadBylaws (initializeService defaultEnv none) trivialLib
        "notes.txt" [1]).2.2, e = UploadEffect.makedirs "documents" :=
  c6_upload_validation (initializeService defaultEnv none) trivialLib
    "notes.txt" [1] (Or.inl (by decide))

/-- Claim C8: on every reachable service state, whenever is_initialized
returns true both the LLM and the vector store are set. -/
theorem c8_initialized_invariant (s : RAGState) (hr : Reachable s)
    (hinit : isInitialized s = true) :
    s.llm.isSome = true ∧ s.vectorstore.isSome = true :=
  reachable_inv hr hinit

/-- Witness for claim C8: the service constructed over a saved index is
initialized, and indeed has its LLM and vector store set. -/
theorem c8_initialized_invariant_witness :
    (initializeService defaultEnv (some [sampleDoc])).llm.isSome = true ∧
    (initializeService defaultEnv (some [sampleDoc])).vectorstore.isSome = true :=
  c8_initialized_invariant (initializeService defaultEnv (some [sampleDoc]))
    (Reachable.init defaultEnv (some [sampleDoc])) (by decide)

/-- Claim C9: a query asked while no QA chain is set raises the
not-initialized error instead of returning an answer, and the /api/ask
endpoint maps that failure to HTTP 500 with the error message as detail. -/
theorem c9_query_uninitialized_500 (s : RAGState) (lib : LibOracle)
    (q : String) (h : s.qaChain = none) :
    (query s lib q).1 = Except.error notInitializedMsg ∧
    askQuestion s lib q false = AskResponse.httpError 500 notInitializedMsg := by
  unfold askQuestion query
  rw [h]
  exact ⟨rfl, rfl⟩

/-- Witness for claim C9: the freshly constructed service with no saved index
has no QA chain, and querying it yields the 500 mapping. -/
theorem c9_query_uninitialized_500_witness :
    (query (initializeService defaultEnv none) trivialLib "q").1 =
      Except.error notInitializedMsg ∧
    askQuestion (initializeService defaultEnv none) trivialLib "q" false =
      AskResponse.httpError 500 notInitializedMsg :=
  c9_query_uninitialized_500 (initializeService defaultEnv none) trivialLib "q"
    (by decide)

/-- Claim C10: every successful query on a reachable service state returns a
sources list without duplicates, of length at most 2 (the retriever is
configured with k=2), in which each entry is built from a document
retrieved for the question as its base filename followed by the stored
0-based page metadata plus one. -/
theorem c10_sources_shape (s : RAGState) (lib : LibOracle) (q : String)
    (r : QueryResult) (hr : Reachable s)
    (hok : (query s lib q).1 = Except.ok r) :
    r.sources.Nodup ∧ r.sources.length ≤ 2 ∧
    ∃ chain, s.qaChain = some chain ∧
      ∀ src ∈ r.sources,
        ∃ d ∈ getRelevantDocuments lib chain.docs chain.retrieverK q,
          src = basename d.source ++ " (Page " ++ natRepr (d.page + 1) ++ ")" := by
  cases hc : s.qaChain with
  | none =>
      unfold query at hok
      rw [hc] at hok
      exact Except.noConfusion hok
  | some chain =>
      unfold query at hok
      rw [hc] at hok
      simp only at hok
      injection hok with h
      subst h
      have hk : chain.retrieverK = 2 := reachable_k2 hr chain hc
      refine ⟨List.nodup_dedup _, ?_, chain, rfl, ?_⟩
      · calc ((getRelevantDocuments lib chain.docs chain.retrieverK q).map
              formatSource).dedup.length
            ≤ ((getRelevantDocuments lib chain.docs chain.retrieverK q).map
              formatSource).length := (List.dedup_sublist _).length_le
          _ = (getRelevantDocuments lib chain.docs chain.retrieverK q).length :=
              List.length_map _ _
          _ ≤ chain.retrieverK := by
              unfold getRelevantDocuments
              exact List.length_take_le _ _
          _ = 2 := hk
      · intro src hsrc
        have hmem := (List.mem_dedup).1 hsrc
        rcases List.mem_map.1 hmem with ⟨d, hd, hfmt⟩
        exact ⟨d, hd, hfmt.symm⟩

/-- Witness for claim C10: querying the service loaded from a one-document
index returns the single, correctly formatted source entry. -/
theorem c10_sources_shape_witness :
    (["bylaws.pdf (Page 1)"] : List String).Nodup ∧
    (["bylaws.pdf (Page 1)"] : List String).length ≤ 2 ∧
    ∃ chain,
      (initializeService defaultEnv (some [sampleDoc])).qaChain = some chain ∧
      ∀ src ∈ (["bylaws.pdf (Page 1)"] : List String),
        ∃ d ∈ getRelevantDocuments trivialLib chain.docs chain.retrieverK "q",
          src = basename d.source ++ " (Page " ++ natRepr (d.page + 1) ++ ")" :=
  c10_sources_shape (initializeService defaultEnv (some [sampleDoc]))
    trivialLib "q"
    ⟨ragPrompt (formatDocs [sampleDoc]) "q", ["bylaws.pdf (Page 1)"]⟩
    (Reachable.init defaultEnv (some [sampleDoc])) (by decide)

end HOA
